import Mathlib

/-!
Shallow embedding of the helm-drift-detect tool (src/cmd/drift.go, plus the
variant of the same program embedded in src/README.md that carries
`findReleaseStorageNamespace`).  External collaborators (the Kubernetes API,
the Helm storage backend, the flux jsondiff engine) are modelled as oracle
functions supplied to the embedded code; the code under verification is the
orchestration, resolution and rendering logic of `HelmDriftDetect.Run`,
`HelmActionClient.getActionConfig` / `GetRelease`, and
`findReleaseStorageNamespace`.
-/

namespace DriftDetect

/-- Go `fmt` values as they occur in `jsondiff.Operation.Value` for the claims
under study: strings and string-keyed maps of strings
(Go `map[string]interface{}` holding string leaves). -/
inductive GoValue where
  | str : String → GoValue
  | obj : List (String × String) → GoValue
deriving DecidableEq

/-- Lexicographic order on character lists by code point, the order Go uses
on string map keys. -/
def charListLe : List Char → List Char → Bool
  | [], _ => true
  | _ :: _, [] => false
  | a :: as, b :: bs =>
    if a.toNat < b.toNat then true
    else if b.toNat < a.toNat then false
    else charListLe as bs

/-- Lexicographic order on strings (Go's `<` on strings). -/
def strLe (a b : String) : Bool := charListLe a.data b.data

/-- Insertion step for sorting rendered key/value pairs by key, mirroring the
fact that Go `fmt` prints map entries in sorted key order. -/
def insertPair (kv : String × String) : List (String × String) → List (String × String)
  | [] => [kv]
  | x :: xs => if strLe kv.1 x.1 then kv :: x :: xs else x :: insertPair kv xs

/-- Sort key/value pairs by key (Go `fmt` prints map keys sorted). -/
def sortPairs : List (String × String) → List (String × String)
  | [] => []
  | x :: xs => insertPair x (sortPairs xs)

/-- Rendering of a value by Go `fmt` verb `%v`: strings print bare, maps print
as `map[k1:v1 k2:v2]` with keys in sorted order. -/
def gofmtV : GoValue → String
  | .str s => s
  | .obj kvs =>
    "map[" ++ String.intercalate " "
      ((sortPairs kvs).map (fun kv => kv.1 ++ ":" ++ kv.2)) ++ "]"

/-- `jsondiff.Operation`: one field-level difference.  `type` is the operation
kind (`replace`, `add`, `remove`, `test`), `path` the JSON-pointer path, and
`value` the original (live) value, `none` modelling a nil interface value. -/
structure PatchOperation where
  type : String
  path : String
  value : Option GoValue

/-- `jsondiff.DiffType`: the classification of one resource diff.  `other`
stands for the remaining jsondiff classifications (`exclude`, `none`), which
the renderer's `switch` skips. -/
inductive DiffType where
  | create
  | update
  | other
deriving DecidableEq

/-- One entry of a `jsondiff.DiffSet`: the resource identity the renderer
reads (`GroupVersionKind().Kind`, `GetName()`), its classification, and the
patch operations for updated resources. -/
structure Diff where
  type : DiffType
  kind : String
  name : String
  patch : List PatchOperation

/-- `jsondiff.DiffSet.HasChanges`: true iff some entry is classified
create or update. -/
def hasChanges (ds : List Diff) : Bool :=
  ds.any (fun d =>
    match d.type with
    | .create => true
    | .update => true
    | .other => false)

/-- The fixed indent unit of `HelmDriftDetect.Run`. -/
def indentU : String := "    "

/-- The newline constant of `HelmDriftDetect.Run`. -/
def newlineU : String := "\n"

/-- The inner loop `for j, p := range d.Patch` of `HelmDriftDetect.Run`: each
iteration logs the path line, the recovery-operation line, and, when the value
is non-nil, the original-value line.  `j` is the running 0-based index. -/
def renderPatches : List PatchOperation → Nat → List String
  | [], _ => []
  | p :: rest, j =>
    ([indentU ++ toString (j + 1) ++ " - Path: " ++ p.path ++ newlineU,
      indentU ++ indentU ++ "Recovery Operation: " ++ p.type ++ newlineU] ++
     (match p.value with
      | some v => [indentU ++ indentU ++ "Original Value: " ++ gofmtV v ++ newlineU]
      | none => [])) ++ renderPatches rest (j + 1)

/-- One iteration of the `switch d.Type` in `HelmDriftDetect.Run`: the list of
logged messages and the updated shared entry counter `i`. -/
def renderEntry (d : Diff) (i : Nat) : List String × Nat :=
  match d.type with
  | .create =>
    ([newlineU ++ toString i ++ " - Resource: " ++ d.kind ++ "/" ++ d.name ++ newlineU,
      indentU ++ "Reason: removed" ++ newlineU], i + 1)
  | .update =>
    ([newlineU ++ toString i ++ " - Resource: " ++ d.kind ++ "/" ++ d.name ++ newlineU,
      indentU ++ "Reason: changed" ++ newlineU] ++ renderPatches d.patch 0, i + 1)
  | .other => ([], i)

/-- The `for _, d := range diffSet` loop of `HelmDriftDetect.Run`, threading
the shared 1-based counter `i` through the entries. -/
def renderEntries : List Diff → Nat → List String
  | [], _ => []
  | d :: rest, i =>
    let r := renderEntry d i
    r.1 ++ renderEntries rest r.2

/-- The report-emission tail of `HelmDriftDetect.Run` (the
`if diffSet.HasChanges()` branch): the sequence of messages handed to the
logger sink, one list element per `Infof` call. -/
def renderReport (diffSet : List Diff) (ns releaseName : String) : List String :=
  if hasChanges diffSet then
    ("Detected drift in HelmRelease " ++ ns ++ "/" ++ releaseName ++ ":" ++ newlineU)
      :: renderEntries diffSet 1
  else
    ["No drift detected in HelmRelease " ++ ns ++ "/" ++ releaseName ++ newlineU]

/-- `v2.IgnoreRule` of the helm-controller API: a list of JSON-pointer paths
and an optional target selector.  `Run` only ever passes these through. -/
structure IgnoreRule where
  paths : List String
  target : Option String
deriving DecidableEq

/-- The drift-detection section of a `HelmRelease` spec
(`helmRelease.Spec.DriftDetection`): carries the ignore rules. -/
structure DriftDetection where
  ignore : List IgnoreRule
deriving DecidableEq

/-- The fields of `v2.HelmRelease.Spec` that `Run` reads: the release-name
override, the storage-namespace override (both `""` when absent, as in Go),
and the optional drift-detection section. -/
structure HelmReleaseSpec where
  releaseName : String
  storageNamespace : String
  driftDetection : Option DriftDetection
deriving DecidableEq

/-- `v2.HelmRelease` restricted to the fields `Run` reads. -/
structure HelmRelease where
  spec : HelmReleaseSpec
deriving DecidableEq

/-- `helmrelease.Release`: treated opaquely by `Run`, which only hands it from
`GetRelease` to `DiffRelease`. -/
structure Release where
  name : String
deriving DecidableEq

/-- Lines 137-139 of drift.go: the release name used from here on is the
spec's override when non-empty, otherwise the caller's argument. -/
def resolveReleaseName (helmRelease : HelmRelease) (releaseName : String) : String :=
  if helmRelease.spec.releaseName ≠ "" then helmRelease.spec.releaseName else releaseName

/-- Lines 141-144 of drift.go: the storage namespace is the spec's override
when non-empty, otherwise the caller's namespace argument. -/
def resolveStorageNamespace (helmRelease : HelmRelease) (ns : String) : String :=
  if helmRelease.spec.storageNamespace ≠ "" then helmRelease.spec.storageNamespace else ns

/-- Lines 151-154 of drift.go: the ignore rules are those of the spec's
drift-detection section, or empty when that section is nil. -/
def resolveIgnoreRules (helmRelease : HelmRelease) : List IgnoreRule :=
  match helmRelease.spec.driftDetection with
  | some dd => dd.ignore
  | none => []

/-- The `HelmClient` interface of drift.go, modelled as an oracle: each
method is a function from its arguments to its result, errors as `Except`
with the underlying error message. -/
structure HelmClient where
  getHelmRelease : String → String → Except String HelmRelease
  getRelease : String → String → Except String Release
  diffRelease : Release → String → List IgnoreRule → Except String (List Diff)

/-- One call `Run` makes on its `HelmClient`, with the arguments passed. -/
inductive CallEvent where
  | getHelmRelease (name ns : String)
  | getRelease (name storageNamespace : String)
  | diffRelease (controller : String) (ignoreRules : List IgnoreRule)
deriving DecidableEq

/-- The observable outcome of one `Run`: the messages handed to the logger
sink in order, the returned error (`none` for success), and the trace of
client calls made, in order. -/
structure RunResult where
  output : List String
  error : Option String
  calls : List CallEvent
deriving DecidableEq

/-- `HelmDriftDetect.Run` of drift.go: fetch the HelmRelease, apply the
release-name and storage-namespace overrides, fetch the stored release,
extract the ignore rules, compute the diff, and render the report.  Each
failure returns the wrapped error with no output; `calls` records the client
calls actually made. -/
def Run (client : HelmClient) (releaseName0 ns : String) : RunResult :=
  let calls0 := [CallEvent.getHelmRelease releaseName0 ns]
  match client.getHelmRelease releaseName0 ns with
  | .error e =>
    { output := [],
      error := some ("failed to get HelmRelease " ++ ns ++ "/" ++ releaseName0 ++ ": " ++ e),
      calls := calls0 }
  | .ok helmRelease =>
    let releaseName := resolveReleaseName helmRelease releaseName0
    let storageNamespace := resolveStorageNamespace helmRelease ns
    let calls1 := calls0 ++ [CallEvent.getRelease releaseName storageNamespace]
    match client.getRelease releaseName storageNamespace with
    | .error e =>
      { output := [],
        error := some ("failed to get Helm release " ++ releaseName ++ ": " ++ e),
        calls := calls1 }
    | .ok release =>
      let ignoreRules := resolveIgnoreRules helmRelease
      let calls2 := calls1 ++ [CallEvent.diffRelease "helm-controller" ignoreRules]
      match client.diffRelease release "helm-controller" ignoreRules with
      | .error e =>
        { output := [], error := some ("failed to detect drift: " ++ e), calls := calls2 }
      | .ok diffSet =>
        { output := renderReport diffSet ns releaseName, error := none, calls := calls2 }

/-- The arguments of the first `GetRelease` call in a trace, if any. -/
def releaseLookup : List CallEvent → Option (String × String)
  | [] => none
  | .getRelease n s :: _ => some (n, s)
  | _ :: rest => releaseLookup rest

/-- The ignore rules of the first `DiffRelease` call in a trace, if any. -/
def diffCall : List CallEvent → Option (List IgnoreRule)
  | [] => none
  | .diffRelease _ rules :: _ => some rules
  | _ :: rest => diffCall rest

/-- The errors `findReleaseStorageNamespace` can produce, one constructor per
`fmt.Errorf` site in the source (README variant, lines 122-143). -/
inductive LocateError where
  | listNamespaces (e : String)
  | listSecrets (ns e : String)
  | notFound (releaseName : String)
deriving DecidableEq

/-- The message of each `LocateError`, as formatted by the source. -/
def LocateError.message : LocateError → String
  | .listNamespaces e => "failed to list namespaces: " ++ e
  | .listSecrets ns e => "failed to list secrets in namespace " ++ ns ++ ": " ++ e
  | .notFound releaseName =>
    "helm release storage not found for release " ++ releaseName ++ " in any namespace"

/-- The read-only cluster surface `findReleaseStorageNamespace` uses:
namespace enumeration (in API return order) and per-namespace secret-name
enumeration, each fallible. -/
structure Cluster where
  namespaces : Except String (List String)
  secrets : String → Except String (List String)

/-- Character-list prefix test, the byte-wise prefix comparison of Go's
`strings.HasPrefix` on valid UTF-8. -/
def charsStartWith : List Char → List Char → Bool
  | _, [] => true
  | [], _ :: _ => false
  | a :: as, b :: bs => a == b && charsStartWith as bs

/-- Go `strings.HasPrefix s p`: does `s` start with `p`. -/
def strStartsWith (s p : String) : Bool := charsStartWith s.data p.data

/-- The namespace loop of `findReleaseStorageNamespace`: for each namespace in
order, list its secrets, fail on a listing error, and return the namespace as
soon as one secret name starts with `secretName`. -/
def findLoop (c : Cluster) (releaseName secretName : String) :
    List String → Except LocateError String
  | [] => .error (.notFound releaseName)
  | ns :: rest =>
    match c.secrets ns with
    | .error e => .error (.listSecrets ns e)
    | .ok secs =>
      if secs.any (fun s => strStartsWith s secretName) then .ok ns
      else findLoop c releaseName secretName rest

/-- `HelmActionClient.findReleaseStorageNamespace` (README variant): list all
namespaces, build the deterministic secret-name stem
`sh.helm.release.v1.<release>.v`, and scan namespaces in enumeration order
for a secret carrying that stem as a name prefix. -/
def findReleaseStorageNamespace (c : Cluster) (releaseName : String) :
    Except LocateError String :=
  match c.namespaces with
  | .error e => .error (.listNamespaces e)
  | .ok nss =>
    findLoop c releaseName ("sh.helm.release.v1." ++ releaseName ++ ".v") nss

/-- `helmaction.Configuration` as far as the claims observe it: the storage
namespace a successful `Init` configured it with (`none` for a freshly
allocated, never-successfully-initialized configuration). -/
structure ActionConfig where
  storageNamespace : Option String
deriving DecidableEq

/-- The mutable state of a `HelmActionClient` relevant to `GetRelease`: the
`actionConfig` pointer, `none` when still nil. -/
structure HelmActionClient where
  actionConfig : Option ActionConfig
deriving DecidableEq

/-- `HelmActionClient.getActionConfig`: if a configuration already exists,
return at once; otherwise allocate one and run `Init` with the supplied
storage namespace (`initRes ns = some e` models `Init` failing with `e`).
Note the source assigns `hc.actionConfig` before calling `Init`, so the
configuration stays allocated even when `Init` fails. -/
def getActionConfig (initRes : String → Option String) (hc : HelmActionClient)
    (storageNamespace : String) : HelmActionClient × Option String :=
  match hc.actionConfig with
  | some _ => (hc, none)
  | none =>
    match initRes storageNamespace with
    | some e => ({ actionConfig := some { storageNamespace := none } }, some e)
    | none => ({ actionConfig := some { storageNamespace := some storageNamespace } }, none)

/-- `HelmActionClient.GetRelease` (drift.go lines 103-108): ensure the action
configuration exists, then call `action.LastRelease` on it.  `lastRelease` is
the oracle for `action.LastRelease`. -/
def GetRelease (initRes : String → Option String)
    (lastRelease : Option ActionConfig → String → Except String Release)
    (hc : HelmActionClient) (name storageNamespace : String) :
    HelmActionClient × Except String Release :=
  let r := getActionConfig initRes hc storageNamespace
  match r.2 with
  | some e => (r.1, .error ("failed to initialize action configuration: " ++ e))
  | none => (r.1, lastRelease r.1.actionConfig name)

/-- C1: rendering the single-entry updated DiffSet of the spec's textual
contract for scope "descheduler" and release "descheduler" yields exactly the
header, a blank line, the 1-indexed resource line, the "changed" reason line,
the 1-indexed path line, the recovery-operation line, and the original-value
line, with a four-space indent unit. -/
theorem c1_render_textual_contract :
    String.join (renderReport
      [{ type := .update, kind := "Deployment", name := "descheduler",
         patch := [{ type := "replace",
                     path := "/spec/template/spec/containers/0/resources/requests",
                     value := some (.obj [("cpu", "500m"), ("memory", "256Mi")]) }] }]
      "descheduler" "descheduler") =
    "Detected drift in HelmRelease descheduler/descheduler:\n" ++
    "\n1 - Resource: Deployment/descheduler\n" ++
    "    Reason: changed\n" ++
    "    1 - Path: /spec/template/spec/containers/0/resources/requests\n" ++
    "        Recovery Operation: replace\n" ++
    "        Original Value: map[cpu:500m memory:256Mi]\n" := by
  rfl

/-- C2 counterexample: the empty DiffSet for release "foo" in scope "bar"
renders the line "No drift detected in HelmRelease bar/foo", which differs
from the claimed "No drift detected in bar/foo" (with or without the trailing
newline). -/
theorem c2_counterexample :
    renderReport [] "bar" "foo" = ["No drift detected in HelmRelease bar/foo\n"] ∧
    ("No drift detected in HelmRelease bar/foo\n" : String) ≠ "No drift detected in bar/foo" ∧
    ("No drift detected in HelmRelease bar/foo\n" : String) ≠ "No drift detected in bar/foo\n" :=
  ⟨rfl, by decide, by decide⟩

/-- C2 (amended): for every DiffSet without changes, rendering for release
"foo" in scope "bar" produces exactly the single line
"No drift detected in HelmRelease bar/foo" and nothing else. -/
theorem c2_no_drift_single_line (ds : List Diff) (h : hasChanges ds = false) :
    renderReport ds "bar" "foo" = ["No drift detected in HelmRelease bar/foo\n"] := by
  unfold renderReport
  rw [h]
  rfl

/-- C2 witness: the empty DiffSet has no changes and renders to the single
no-drift line. -/
theorem c2_no_drift_single_line_witness :
    hasChanges [] = false ∧
    renderReport [] "bar" "foo" = ["No drift detected in HelmRelease bar/foo\n"] :=
  ⟨rfl, c2_no_drift_single_line [] rfl⟩

/-- C5: a created-classified DiffEntry renders to exactly one resource line
and one reason line reading "removed" (and nothing else — no path, operation
or value lines), incrementing the shared entry counter. -/
theorem c5_created_entry_lines (d : Diff) (i : Nat) (h : d.type = .create) :
    renderEntry d i =
      ([newlineU ++ toString i ++ " - Resource: " ++ d.kind ++ "/" ++ d.name ++ newlineU,
        indentU ++ "Reason: removed" ++ newlineU], i + 1) := by
  unfold renderEntry
  rw [h]

/-- C5 witness: a concrete created entry renders to exactly the resource line
and the "removed" reason line. -/
theorem c5_created_entry_lines_witness :
    renderEntry { type := .create, kind := "Service", name := "svc", patch := [] } 1 =
      (["\n1 - Resource: Service/svc\n", "    Reason: removed\n"], 2) :=
  c5_created_entry_lines { type := .create, kind := "Service", name := "svc", patch := [] } 1 rfl

/-- C3: the release lookup uses the caller's release name and namespace
unchanged when the fetched HelmRelease carries no override, and the respective
override when it does. -/
theorem c3_override_resolution (client : HelmClient) (r0 ns : String) (hr : HelmRelease)
    (h : client.getHelmRelease r0 ns = .ok hr) :
    releaseLookup (Run client r0 ns).calls =
      some (resolveReleaseName hr r0, resolveStorageNamespace hr ns) ∧
    (hr.spec.releaseName = "" → resolveReleaseName hr r0 = r0) ∧
    (hr.spec.releaseName ≠ "" → resolveReleaseName hr r0 = hr.spec.releaseName) ∧
    (hr.spec.storageNamespace = "" → resolveStorageNamespace hr ns = ns) ∧
    (hr.spec.storageNamespace ≠ "" → resolveStorageNamespace hr ns = hr.spec.storageNamespace) := by
  refine ⟨?_, ?_, ?_, ?_, ?_⟩
  · unfold Run
    rw [h]
    dsimp only
    cases hg : client.getRelease (resolveReleaseName hr r0) (resolveStorageNamespace hr ns) with
    | error e => rfl
    | ok rel =>
      dsimp only
      cases hd : client.diffRelease rel "helm-controller" (resolveIgnoreRules hr) with
      | error e => rfl
      | ok ds => rfl
  · intro he
    simp [resolveReleaseName, he]
  · intro he
    simp [resolveReleaseName, he]
  · intro he
    simp [resolveStorageNamespace, he]
  · intro he
    simp [resolveStorageNamespace, he]

/-- C3 witness: a client whose HelmRelease carries a release-name override and
no storage override resolves the lookup to the override name and the original
namespace. -/
theorem c3_override_resolution_witness :
    releaseLookup (Run
      { getHelmRelease := fun _ _ =>
          .ok { spec := { releaseName := "sub", storageNamespace := "", driftDetection := none } },
        getRelease := fun n _ => .ok { name := n },
        diffRelease := fun _ _ _ => .ok [] } "r" "n").calls = some ("sub", "n") :=
  (c3_override_resolution
    { getHelmRelease := fun _ _ =>
        .ok { spec := { releaseName := "sub", storageNamespace := "", driftDetection := none } },
      getRelease := fun n _ => .ok { name := n },
      diffRelease := fun _ _ _ => .ok [] } "r" "n"
    { spec := { releaseName := "sub", storageNamespace := "", driftDetection := none } } rfl).1

/-- A client whose diff computation fails: the HelmRelease fetch and the
release fetch succeed, the diff fails with "boom". -/
def c4Client : HelmClient :=
  { getHelmRelease := fun _ _ =>
      .ok { spec := { releaseName := "", storageNamespace := "", driftDetection := none } },
    getRelease := fun n _ => .ok { name := n },
    diffRelease := fun _ _ _ => .error "boom" }

/-- C4 counterexample: when the diff computation fails, the surfaced error is
"failed to detect drift: boom" — it names the operation but neither the
release name "foo" nor the namespace "bar", so the error does not carry the
identifiers being processed (output is still empty). -/
theorem c4_counterexample :
    (Run c4Client "foo" "bar").error = some "failed to detect drift: boom" ∧
    (Run c4Client "foo" "bar").output = [] ∧
    ¬ ("foo".data <:+: "failed to detect drift: boom".data) ∧
    ¬ ("bar".data <:+: "failed to detect drift: boom".data) :=
  ⟨rfl, rfl, by decide, by decide⟩

/-- C4 (amended): when any of the three component fetches fails, Run returns
the wrapped error (naming the operation, and for the HelmRelease and release
fetches also the identifiers being processed), emits no report output, and
makes no further component calls after the first failure. -/
theorem c4_failure_aborts (client : HelmClient) (r0 ns : String) :
    (∀ e, client.getHelmRelease r0 ns = .error e →
      Run client r0 ns =
        { output := [],
          error := some ("failed to get HelmRelease " ++ ns ++ "/" ++ r0 ++ ": " ++ e),
          calls := [.getHelmRelease r0 ns] }) ∧
    (∀ hr e, client.getHelmRelease r0 ns = .ok hr →
      client.getRelease (resolveReleaseName hr r0) (resolveStorageNamespace hr ns) = .error e →
      Run client r0 ns =
        { output := [],
          error := some ("failed to get Helm release " ++ resolveReleaseName hr r0 ++ ": " ++ e),
          calls := [.getHelmRelease r0 ns,
                    .getRelease (resolveReleaseName hr r0) (resolveStorageNamespace hr ns)] }) ∧
    (∀ hr rel e, client.getHelmRelease r0 ns = .ok hr →
      client.getRelease (resolveReleaseName hr r0) (resolveStorageNamespace hr ns) = .ok rel →
      client.diffRelease rel "helm-controller" (resolveIgnoreRules hr) = .error e →
      Run client r0 ns =
        { output := [],
          error := some ("failed to detect drift: " ++ e),
          calls := [.getHelmRelease r0 ns,
                    .getRelease (resolveReleaseName hr r0) (resolveStorageNamespace hr ns),
                    .diffRelease "helm-controller" (resolveIgnoreRules hr)] }) := by
  refine ⟨?_, ?_, ?_⟩
  · intro e h
    unfold Run
    rw [h]
  · intro hr e h1 h2
    unfold Run
    rw [h1]
    dsimp only
    rw [h2]
    rfl
  · intro hr rel e h1 h2 h3
    unfold Run
    rw [h1]
    dsimp only
    rw [h2]
    dsimp only
    rw [h3]
    rfl

/-- C4 witness: with the client whose diff fails, Run stops after the three
calls, emits nothing and returns the wrapped diff error. -/
theorem c4_failure_aborts_witness :
    Run c4Client "foo" "bar" =
      { output := [],
        error := some ("failed to detect drift: " ++ "boom"),
        calls := [.getHelmRelease "foo" "bar",
                  .getRelease "foo" "bar",
                  .diffRelease "helm-controller" []] } :=
  (c4_failure_aborts c4Client "foo" "bar").2.2
    { spec := { releaseName := "", storageNamespace := "", driftDetection := none } }
    { name := "foo" } "boom" rfl rfl rfl

/-- C6: the ignore-rule list handed to the diff computation is exactly the
drift-detection section's ignore list of the fetched HelmRelease, and empty
when that section is absent. -/
theorem c6_ignore_rules_forwarded (client : HelmClient) (r0 ns : String)
    (hr : HelmRelease) (rel : Release)
    (h1 : client.getHelmRelease r0 ns = .ok hr)
    (h2 : client.getRelease (resolveReleaseName hr r0) (resolveStorageNamespace hr ns) = .ok rel) :
    diffCall (Run client r0 ns).calls = some (resolveIgnoreRules hr) ∧
    (hr.spec.driftDetection = none → resolveIgnoreRules hr = []) ∧
    (∀ dd, hr.spec.driftDetection = some dd → resolveIgnoreRules hr = dd.ignore) := by
  refine ⟨?_, ?_, ?_⟩
  · unfold Run
    rw [h1]
    dsimp only
    rw [h2]
    dsimp only
    cases hd : client.diffRelease rel "helm-controller" (resolveIgnoreRules hr) with
    | error e => rfl
    | ok ds => rfl
  · intro he
    simp [resolveIgnoreRules, he]
  · intro dd he
    simp [resolveIgnoreRules, he]

/-- C6 witness: a HelmRelease carrying one ignore rule makes Run pass exactly
that rule to the diff computation. -/
theorem c6_ignore_rules_forwarded_witness :
    diffCall (Run
      { getHelmRelease := fun _ _ =>
          .ok { spec := { releaseName := "", storageNamespace := "",
                          driftDetection := some { ignore := [{ paths := ["/spec/replicas"],
                                                                target := none }] } } },
        getRelease := fun n _ => .ok { name := n },
        diffRelease := fun _ _ _ => .ok [] } "r" "n").calls =
      some [{ paths := ["/spec/replicas"], target := none }] :=
  (c6_ignore_rules_forwarded
    { getHelmRelease := fun _ _ =>
        .ok { spec := { releaseName := "", storageNamespace := "",
                        driftDetection := some { ignore := [{ paths := ["/spec/replicas"],
                                                              target := none }] } } },
      getRelease := fun n _ => .ok { name := n },
      diffRelease := fun _ _ _ => .ok [] } "r" "n"
    { spec := { releaseName := "", storageNamespace := "",
                driftDetection := some { ignore := [{ paths := ["/spec/replicas"],
                                                      target := none }] } } }
    { name := "r" } rfl rfl).1

/-- C10: on a successful run, both the drift header and the no-drift line use
the namespace originally passed to Run as the scope — never the storage
override — and use the resolved release name (the spec override when
non-empty). -/
theorem c10_report_identifiers (client : HelmClient) (r0 ns : String)
    (hr : HelmRelease) (rel : Release) (ds : List Diff)
    (h1 : client.getHelmRelease r0 ns = .ok hr)
    (h2 : client.getRelease (resolveReleaseName hr r0) (resolveStorageNamespace hr ns) = .ok rel)
    (h3 : client.diffRelease rel "helm-controller" (resolveIgnoreRules hr) = .ok ds) :
    (Run client r0 ns).output = renderReport ds ns (resolveReleaseName hr r0) ∧
    (hasChanges ds = true →
      (Run client r0 ns).output.head? =
        some ("Detected drift in HelmRelease " ++ ns ++ "/" ++
              resolveReleaseName hr r0 ++ ":" ++ newlineU)) ∧
    (hasChanges ds = false →
      (Run client r0 ns).output =
        ["No drift detected in HelmRelease " ++ ns ++ "/" ++
         resolveReleaseName hr r0 ++ newlineU]) ∧
    (hr.spec.releaseName ≠ "" → resolveReleaseName hr r0 = hr.spec.releaseName) := by
  have hout : (Run client r0 ns).output = renderReport ds ns (resolveReleaseName hr r0) := by
    unfold Run
    rw [h1]
    dsimp only
    rw [h2]
    dsimp only
    rw [h3]
  refine ⟨hout, ?_, ?_, ?_⟩
  · intro hc
    rw [hout]
    unfold renderReport
    rw [hc]
    rfl
  · intro hc
    rw [hout]
    unfold renderReport
    rw [hc]
    rfl
  · intro he
    simp [resolveReleaseName, he]

/-- C10 witness: with a storage-namespace override "store" and a release-name
override "subrel", the no-drift line still uses the original namespace
"origns" together with the overridden release name. -/
theorem c10_report_identifiers_witness :
    (Run
      { getHelmRelease := fun _ _ =>
          .ok { spec := { releaseName := "subrel", storageNamespace := "store",
                          driftDetection := none } },
        getRelease := fun n _ => .ok { name := n },
        diffRelease := fun _ _ _ => .ok [] } "r" "origns").output =
      ["No drift detected in HelmRelease " ++ "origns" ++ "/" ++ "subrel" ++ newlineU] :=
  ((c10_report_identifiers
    { getHelmRelease := fun _ _ =>
        .ok { spec := { releaseName := "subrel", storageNamespace := "store",
                        driftDetection := none } },
      getRelease := fun n _ => .ok { name := n },
      diffRelease := fun _ _ _ => .ok [] } "r" "origns"
    { spec := { releaseName := "subrel", storageNamespace := "store", driftDetection := none } }
    { name := "subrel" } [] rfl rfl rfl).2.2.1) rfl

/-- When every namespace of the list yields a successful secret listing with
no matching name, the scan falls through to the not-found error. -/
theorem findLoop_notFound (c : Cluster) (r sn : String) :
    ∀ nss : List String,
      (∀ ns ∈ nss, ∃ secs, c.secrets ns = .ok secs ∧
        secs.any (fun s => strStartsWith s sn) = false) →
      findLoop c r sn nss = .error (.notFound r) := by
  intro nss
  induction nss with
  | nil => intro _; rfl
  | cons ns rest ih =>
    intro h
    obtain ⟨secs, hsec, hmatch⟩ := h ns (List.mem_cons_self ns rest)
    unfold findLoop
    rw [hsec]
    dsimp only
    rw [hmatch]
    exact ih (fun m hm => h m (List.mem_cons_of_mem ns hm))

/-- The scan returns the first namespace of the enumeration whose secret
listing contains a match, skipping earlier namespaces that listed
successfully without a match. -/
theorem findLoop_first_match (c : Cluster) (r sn : String) (ns : String)
    (secs : List String)
    (hsec : c.secrets ns = .ok secs)
    (hmatch : secs.any (fun s => strStartsWith s sn) = true) :
    ∀ pre : List String,
      (∀ m ∈ pre, ∃ s2, c.secrets m = .ok s2 ∧
        s2.any (fun s => strStartsWith s sn) = false) →
      ∀ post : List String,
        findLoop c r sn (pre ++ ns :: post) = .ok ns := by
  intro pre
  induction pre with
  | nil =>
    intro _ post
    show findLoop c r sn (ns :: post) = .ok ns
    unfold findLoop
    rw [hsec]
    dsimp only
    rw [hmatch]
    rfl
  | cons m rest ih =>
    intro h post
    obtain ⟨s2, hs2, hm2⟩ := h m (List.mem_cons_self m rest)
    show findLoop c r sn (m :: (rest ++ ns :: post)) = .ok ns
    unfold findLoop
    rw [hs2]
    dsimp only
    rw [hm2]
    exact ih (fun x hx => h x (List.mem_cons_of_mem m hx)) post

/-- C7: when namespaces enumerate successfully and no namespace holds a secret
whose name starts with `sh.helm.release.v1.<release>.v`, the locator fails
with the not-found error naming the release; a failure to enumerate
namespaces, or to enumerate the secrets of the first namespace, surfaces as a
distinct error instead. -/
theorem c7_locator_not_found (c : Cluster) (r : String) :
    (∀ nss, c.namespaces = .ok nss →
      (∀ ns ∈ nss, ∃ secs, c.secrets ns = .ok secs ∧
        secs.any (fun s => strStartsWith s ("sh.helm.release.v1." ++ r ++ ".v")) = false) →
      findReleaseStorageNamespace c r = .error (.notFound r) ∧
      (LocateError.notFound r).message =
        "helm release storage not found for release " ++ r ++ " in any namespace") ∧
    (∀ e, c.namespaces = .error e →
      findReleaseStorageNamespace c r = .error (.listNamespaces e) ∧
      LocateError.listNamespaces e ≠ .notFound r) ∧
    (∀ ns rest e, c.namespaces = .ok (ns :: rest) → c.secrets ns = .error e →
      findReleaseStorageNamespace c r = .error (.listSecrets ns e) ∧
      LocateError.listSecrets ns e ≠ .notFound r) := by
  refine ⟨?_, ?_, ?_⟩
  · intro nss hn hall
    refine ⟨?_, rfl⟩
    unfold findReleaseStorageNamespace
    rw [hn]
    exact findLoop_notFound c r ("sh.helm.release.v1." ++ r ++ ".v") nss hall
  · intro e hn
    refine ⟨?_, by simp⟩
    unfold findReleaseStorageNamespace
    rw [hn]
  · intro ns rest e hn hs
    refine ⟨?_, by simp⟩
    unfold findReleaseStorageNamespace
    rw [hn]
    unfold findLoop
    rw [hs]

/-- C7 witness: a cluster with two namespaces whose only secret is unrelated
makes the locator fail with the not-found error naming release "x". -/
theorem c7_locator_not_found_witness :
    findReleaseStorageNamespace
      { namespaces := .ok ["alpha", "beta"], secrets := fun _ => .ok ["unrelated-secret"] }
      "x" = .error (.notFound "x") :=
  ((c7_locator_not_found
    { namespaces := .ok ["alpha", "beta"], secrets := fun _ => .ok ["unrelated-secret"] }
    "x").1 ["alpha", "beta"] rfl
    (fun ns _ => ⟨["unrelated-secret"], rfl, by decide⟩)).1

/-- A cluster whose namespaces enumerate as ["b", "a"], both holding a storage
secret for release "x". -/
def c8Cluster : Cluster :=
  { namespaces := .ok ["b", "a"],
    secrets := fun _ => .ok ["sh.helm.release.v1.x.v1"] }

/-- C8 counterexample: with enumeration order ["b", "a"] and a matching secret
in both namespaces, the locator selects "b" — the first enumerated namespace —
even though "a" is the lexicographically-first matching scope, so the
lexicographic tie-break of the claim does not hold. -/
theorem c8_counterexample :
    findReleaseStorageNamespace c8Cluster "x" = .ok "b" ∧
    findReleaseStorageNamespace c8Cluster "x" ≠ .ok "a" ∧
    strStartsWith "sh.helm.release.v1.x.v1" ("sh.helm.release.v1." ++ "x" ++ ".v") = true ∧
    strLe "a" "b" = true ∧ ("a" : String) ≠ "b" :=
  ⟨rfl,
   fun h => by
     have hb : findReleaseStorageNamespace c8Cluster "x" = Except.ok "b" := rfl
     rw [hb] at h
     exact absurd (Except.ok.inj h) (by decide),
   by decide, by decide, by decide⟩

/-- C8 (amended): the locator selects the first namespace in enumeration order
whose secret listing contains a matching entry; when several namespaces match,
the earliest-enumerated one wins regardless of lexicographic order, and the
scan is total (it cannot crash). -/
theorem c8_first_enumerated_match (c : Cluster) (r ns : String)
    (pre post : List String) (secs : List String)
    (hn : c.namespaces = .ok (pre ++ ns :: post))
    (hpre : ∀ m ∈ pre, ∃ s2, c.secrets m = .ok s2 ∧
      s2.any (fun s => strStartsWith s ("sh.helm.release.v1." ++ r ++ ".v")) = false)
    (hsec : c.secrets ns = .ok secs)
    (hmatch : secs.any (fun s => strStartsWith s ("sh.helm.release.v1." ++ r ++ ".v")) = true) :
    findReleaseStorageNamespace c r = .ok ns := by
  unfold findReleaseStorageNamespace
  rw [hn]
  exact findLoop_first_match c r ("sh.helm.release.v1." ++ r ++ ".v") ns secs hsec hmatch
    pre hpre post

/-- C8 witness: with enumeration ["b", "a"] and matches in both, the first
enumerated namespace "b" is returned. -/
theorem c8_first_enumerated_match_witness :
    findReleaseStorageNamespace c8Cluster "x" = .ok "b" :=
  c8_first_enumerated_match c8Cluster "x" "b" [] ["a"] ["sh.helm.release.v1.x.v1"]
    rfl (fun m hm => absurd hm (List.not_mem_nil m)) rfl (by decide)

/-- C9: once the client's action configuration is set, every later GetRelease
call leaves it unchanged and ignores its storageNamespace argument (the
result is stated without reference to that argument); and the first
GetRelease on a fresh client whose Init succeeds records the storage
namespace supplied to that call. -/
theorem c9_action_config_sticky (initRes : String → Option String)
    (lastRelease : Option ActionConfig → String → Except String Release) :
    (∀ hc cfg name ns, hc.actionConfig = some cfg →
      GetRelease initRes lastRelease hc name ns = (hc, lastRelease (some cfg) name)) ∧
    (∀ name ns, initRes ns = none →
      GetRelease initRes lastRelease { actionConfig := none } name ns =
        ({ actionConfig := some { storageNamespace := some ns } },
         lastRelease (some { storageNamespace := some ns }) name)) := by
  constructor
  · intro hc cfg name ns h
    unfold GetRelease getActionConfig
    rw [h]
    dsimp only
    rw [h]
  · intro name ns h
    unfold GetRelease getActionConfig
    dsimp only
    rw [h]

/-- C9 witness: a client already initialized with storage namespace "ns1",
called with the different namespace "ns2", is returned unchanged with the
lookup done against the existing configuration. -/
theorem c9_action_config_sticky_witness :
    GetRelease (fun _ => none) (fun _ n => .ok { name := n })
      { actionConfig := some { storageNamespace := some "ns1" } } "rel" "ns2" =
      ({ actionConfig := some { storageNamespace := some "ns1" } },
       .ok { name := "rel" }) :=
  (c9_action_config_sticky (fun _ => none) (fun _ n => .ok { name := n })).1
    { actionConfig := some { storageNamespace := some "ns1" } }
    { storageNamespace := some "ns1" } "rel" "ns2" rfl

end DriftDetect
